import Mathlib

/-!
Shallow embedding of the trading bot's order and position state machine
(`IBApp.py`, class `IBClient`).  Broker callbacks become pure functions on an
explicit `BotState`; order submissions to the gateway are collected in an
output list.  Prices are modelled as rationals, share quantities as naturals.
Logging and CSV output are omitted: they never feed back into trading state.
-/

namespace IBApp

/-- Stop order as held in `self.active_order` and submitted via `placeOrder`. -/
structure Order where
  action : String
  orderId : Nat
  auxPrice : ℚ
  totalQuantity : Nat
deriving DecidableEq

/-- Open-order snapshot item as delivered to the `openOrder` callback. -/
structure OpenOrderItem where
  symbol : String
  orderType : String
  orderId : Nat
  action : String
  auxPrice : ℚ
  totalQuantity : Nat
deriving DecidableEq

/-- Execution fill as delivered to the `execDetails` callback. -/
structure Execution where
  orderId : Nat
  price : ℚ
  shares : Nat
deriving DecidableEq

/-- Mutable trading state of an `IBClient` instance (`__init__`). -/
structure BotState where
  stock_symbol : String
  upper_bound : ℚ
  lower_bound : ℚ
  buy_qty : Nat
  active_order : Option Order
  fill_tracker : List (Nat × Nat)
  in_position : Bool
  open_orders_loaded : Bool
  positions_loaded : Bool
  logged_position : Bool
  last_buy_price : Option ℚ
  running_loss : ℚ
  next_order_id : Nat
deriving DecidableEq

/-- Python dict read `self.fill_tracker.get(order_id, 0)`. -/
def trackGet : List (Nat × Nat) → Nat → Nat
  | [], _ => 0
  | p :: rest, k => if p.1 = k then p.2 else trackGet rest k

/-- Python dict write `self.fill_tracker[order_id] = v` (keys stay unique). -/
def trackSet : List (Nat × Nat) → Nat → Nat → List (Nat × Nat)
  | [], k, v => [(k, v)]
  | p :: rest, k, v => if p.1 = k then (k, v) :: rest else p :: trackSet rest k v

/-- Python dict removal `del self.fill_tracker[order_id]`. -/
def trackDel : List (Nat × Nat) → Nat → List (Nat × Nat)
  | [], _ => []
  | p :: rest, k => if p.1 = k then trackDel rest k else p :: trackDel rest k

/-- Method `place_buy_order`: no-op when an active order exists, otherwise
submit a BUY stop at `upper_bound` for `buy_qty` and make it active. -/
def place_buy_order (s : BotState) : BotState × List Order :=
  match s.active_order with
  | some _ => (s, [])
  | none =>
    let o : Order :=
      { action := "BUY", orderId := s.next_order_id,
        auxPrice := s.upper_bound, totalQuantity := s.buy_qty }
    ({ s with next_order_id := s.next_order_id + 1, active_order := some o }, [o])

/-- Method `place_sell_order`: no-op when an active order exists, otherwise
submit a SELL stop at `lower_bound` for `buy_qty` and make it active. -/
def place_sell_order (s : BotState) : BotState × List Order :=
  match s.active_order with
  | some _ => (s, [])
  | none =>
    let o : Order :=
      { action := "SELL", orderId := s.next_order_id,
        auxPrice := s.lower_bound, totalQuantity := s.buy_qty }
    ({ s with next_order_id := s.next_order_id + 1, active_order := some o }, [o])

/-- Method `initialize_orders_if_ready` (the startup reconciliation barrier):
once both snapshots are loaded, place the initial BUY iff no active order. -/
def init_orders_if_ready (s : BotState) : BotState × List Order :=
  if s.open_orders_loaded && s.positions_loaded then
    match s.active_order with
    | none => place_buy_order s
    | some _ => (s, [])
  else
    (s, [])

/-- Callback `openOrder`: adopt a matching stop order for our symbol. -/
def openOrder (s : BotState) (it : OpenOrderItem) : BotState :=
  if it.symbol = s.stock_symbol ∧ it.orderType = "STP" then
    { s with active_order := some { action := it.action, orderId := it.orderId,
                                    auxPrice := it.auxPrice,
                                    totalQuantity := it.totalQuantity } }
  else s

/-- Callback `openOrderEnd`: mark open orders loaded, then try the barrier. -/
def openOrderEnd (s : BotState) : BotState × List Order :=
  init_orders_if_ready { s with open_orders_loaded := true }

/-- Callback `position`: remember that we hold shares of our symbol. -/
def position (s : BotState) (symbol : String) (pos : Int) : BotState :=
  if symbol = s.stock_symbol ∧ 0 < pos then
    let s1 := { s with in_position := true }
    if s1.logged_position then s1 else { s1 with logged_position := true }
  else s

/-- Callback `positionEnd`: mark positions loaded, then try the barrier. -/
def positionEnd (s : BotState) : BotState × List Order :=
  init_orders_if_ready { s with positions_loaded := true }

/-- Callback `error`: logging only, trading state untouched. -/
def error (s : BotState) (req_id code : Int) (msg : String) : BotState :=
  s

/-- Callback `tickByTickAllLast`: logging only, trading state untouched. -/
def tickByTickAllLast (s : BotState) (reqId tickType timestamp : Nat)
    (price : ℚ) (size : Nat) : BotState :=
  s

/-- Callback `execDetails`: fill aggregation, loss accounting, completion. -/
def execDetails (s : BotState) (e : Execution) : BotState × List Order :=
  match s.active_order with
  | none => (s, [])
  | some ao =>
    if ao.orderId = e.orderId then
      let ft := trackSet s.fill_tracker e.orderId
                  (trackGet s.fill_tracker e.orderId + e.shares)
      let filled_total := trackGet ft e.orderId
      let s1 := { s with fill_tracker := ft }
      if filled_total < s1.buy_qty then
        (s1, [])
      else if ao.action = "BUY" then
        let s2 := { s1 with last_buy_price := some e.price,
                            active_order := none, in_position := true }
        let r := place_sell_order s2
        ({ r.1 with fill_tracker := trackDel r.1.fill_tracker e.orderId }, r.2)
      else if ao.action = "SELL" then
        let loss : ℚ :=
          match s1.last_buy_price with
          | some b => (b - e.price) * (s1.buy_qty : ℚ)
          | none => 0
        let s2 := { s1 with running_loss := s1.running_loss + loss,
                            active_order := none, in_position := false }
        let r := place_buy_order s2
        ({ r.1 with fill_tracker := trackDel r.1.fill_tracker e.orderId }, r.2)
      else
        ({ s1 with fill_tracker := trackDel s1.fill_tracker e.orderId }, [])
    else (s, [])

/-- Typed broker events routed to the callbacks above. -/
inductive Event where
  | openOrderItem (it : OpenOrderItem)
  | openOrdersEndEv
  | positionItem (symbol : String) (pos : Int)
  | positionsEndEv
  | execFill (e : Execution)
  | marketTick (price : ℚ)
  | brokerError (code : Int) (msg : String)
deriving DecidableEq

/-- Dispatch one broker event to its handler. -/
def step (s : BotState) : Event → BotState × List Order
  | Event.openOrderItem it => (openOrder s it, [])
  | Event.openOrdersEndEv => openOrderEnd s
  | Event.positionItem sym pos => (position s sym pos, [])
  | Event.positionsEndEv => positionEnd s
  | Event.execFill e => execDetails s e
  | Event.marketTick p => (tickByTickAllLast s 1 0 0 p 0, [])
  | Event.brokerError c m => (error s 0 c m, [])

/-- Run a sequence of broker events, collecting all submitted orders. -/
def runEvents (s : BotState) : List Event → BotState × List Order
  | [] => (s, [])
  | ev :: rest =>
    let r := step s ev
    let r2 := runEvents r.1 rest
    (r2.1, r.2 ++ r2.2)

/-- Guard of the barrier decision in `initialize_orders_if_ready`. -/
def barrierReady (s : BotState) : Bool :=
  s.open_orders_loaded && s.positions_loaded

/-- Helper building position snapshot events from (symbol, quantity) pairs. -/
def mkPosEvents (ps : List (String × Int)) : List Event :=
  ps.map (fun p => Event.positionItem p.1 p.2)

/-- Freshly constructed client state: symbol TSLA, bounds 20 and 10,
order quantity 100, first order id 1. -/
def demoState : BotState :=
  { stock_symbol := "TSLA", upper_bound := 20, lower_bound := 10, buy_qty := 100,
    active_order := none, fill_tracker := [], in_position := false,
    open_orders_loaded := false, positions_loaded := false,
    logged_position := false, last_buy_price := none, running_loss := 0,
    next_order_id := 1 }

/-- State holding an active SELL stop (id 5) with a known last BUY at 10. -/
def sellState : BotState :=
  { stock_symbol := "TSLA", upper_bound := 20, lower_bound := 10, buy_qty := 100,
    active_order := some { action := "SELL", orderId := 5, auxPrice := 10,
                           totalQuantity := 100 },
    fill_tracker := [], in_position := true,
    open_orders_loaded := true, positions_loaded := true,
    logged_position := true, last_buy_price := some 10, running_loss := 0,
    next_order_id := 6 }

/-- State holding an active BUY stop (id 3) with no BUY price recorded yet. -/
def buyState : BotState :=
  { stock_symbol := "TSLA", upper_bound := 20, lower_bound := 10, buy_qty := 100,
    active_order := some { action := "BUY", orderId := 3, auxPrice := 20,
                           totalQuantity := 100 },
    fill_tracker := [], in_position := false,
    open_orders_loaded := true, positions_loaded := true,
    logged_position := false, last_buy_price := none, running_loss := 0,
    next_order_id := 4 }

/-- State that adopted a broker-reported SELL stop (id 7) asking only
50 shares, while the configured order quantity is 100. -/
def adoptedState : BotState :=
  { stock_symbol := "TSLA", upper_bound := 20, lower_bound := 10, buy_qty := 100,
    active_order := some { action := "SELL", orderId := 7, auxPrice := 10,
                           totalQuantity := 50 },
    fill_tracker := [], in_position := true,
    open_orders_loaded := true, positions_loaded := true,
    logged_position := true, last_buy_price := some 10, running_loss := 0,
    next_order_id := 8 }

/-- Reading a key just written into the fill tracker yields the written value. -/
theorem trackGet_trackSet (m : List (Nat × Nat)) (k v : Nat) :
    trackGet (trackSet m k v) k = v := by
  induction m with
  | nil => simp [trackGet, trackSet]
  | cons p rest ih =>
    by_cases h : p.1 = k
    · simp [trackGet, trackSet, h]
    · simp [trackGet, trackSet, h, ih]

/-- Deleting a key from the fill tracker leaves no entry for it. -/
theorem trackGet_trackDel (m : List (Nat × Nat)) (k : Nat) :
    trackGet (trackDel m k) k = 0 := by
  induction m with
  | nil => simp [trackGet, trackDel]
  | cons p rest ih =>
    by_cases h : p.1 = k
    · simp [trackDel, h, ih]
    · simp [trackGet, trackDel, h, ih]

/-- With an active order present the barrier never changes state nor places. -/
theorem init_active_some (s : BotState) (o : Order)
    (h : s.active_order = some o) : init_orders_if_ready s = (s, []) := by
  unfold init_orders_if_ready
  split
  · rw [h]
  · rfl

/-- Running a concatenation of event lists composes states and outputs. -/
theorem runEvents_append (a b : List Event) (s : BotState) :
    runEvents s (a ++ b) =
      ((runEvents (runEvents s a).1 b).1,
        (runEvents s a).2 ++ (runEvents (runEvents s a).1 b).2) := by
  induction a generalizing s with
  | nil => simp [runEvents]
  | cons ev rest ih =>
    simp only [List.cons_append, runEvents, List.append_eq, ih, List.append_assoc]

/-- A position snapshot item touches only the two position-memory fields. -/
theorem position_shape (s : BotState) (sym : String) (pos : Int) :
    ∃ b c, position s sym pos =
      { s with in_position := b, logged_position := c } := by
  by_cases h : sym = s.stock_symbol ∧ 0 < pos
  · by_cases h2 : s.logged_position
    · exact ⟨true, s.logged_position, by simp [position, h, h2]⟩
    · exact ⟨true, true, by simp [position, h, h2]⟩
  · exact ⟨s.in_position, s.logged_position, by simp [position, h]⟩

/-- A run of position snapshot items places nothing and touches only the two
position-memory fields. -/
theorem runPos_shape (ps : List (String × Int)) (s : BotState) :
    ∃ b c, runEvents s (mkPosEvents ps) =
      ({ s with in_position := b, logged_position := c }, []) := by
  induction ps generalizing s with
  | nil => exact ⟨s.in_position, s.logged_position, rfl⟩
  | cons p rest ih =>
    obtain ⟨b0, c0, h0⟩ := position_shape s p.1 p.2
    obtain ⟨b, c, h⟩ := ih { s with in_position := b0, logged_position := c0 }
    refine ⟨b, c, ?_⟩
    simp only [mkPosEvents, List.map_cons, runEvents, step]
    rw [h0]
    rw [show List.map (fun p => Event.positionItem p.1 p.2) rest
          = mkPosEvents rest from rfl, h]
    rfl

/-- A run of open-order snapshot items submits no orders. -/
theorem runOO_out (oos : List OpenOrderItem) (s : BotState) :
    (runEvents s (oos.map Event.openOrderItem)).2 = [] := by
  induction oos generalizing s with
  | nil => rfl
  | cons it rest ih => simp [runEvents, step, ih]

/-- Output of the two end-of-snapshot events ignores the position-memory
fields. -/
theorem ends_out_congr (s : BotState) (b c : Bool) :
    (runEvents { s with in_position := b, logged_position := c }
        [Event.openOrdersEndEv, Event.positionsEndEv]).2 =
      (runEvents s [Event.openOrdersEndEv, Event.positionsEndEv]).2 := by
  obtain ⟨sym, ub, lb, q, act, ft, ip, ool, pl, lp, lbp, rl, noid⟩ := s
  cases pl <;> cases act <;>
    simp [runEvents, step, openOrderEnd, positionEnd, init_orders_if_ready,
      place_buy_order]

/-- With an active order present, the two end-of-snapshot events submit
nothing. -/
theorem ends_out_some (s : BotState) (o : Order)
    (h : s.active_order = some o) :
    (runEvents s [Event.openOrdersEndEv, Event.positionsEndEv]).2 = [] := by
  obtain ⟨sym, ub, lb, q, act, ft, ip, ool, pl, lp, lbp, rl, noid⟩ := s
  simp only at h
  subst h
  simp [runEvents, step, openOrderEnd, positionEnd, init_orders_if_ready]

/-- Claim C5: at most one active order exists in any reachable state, and
`place_buy_order` / `place_sell_order` change nothing and submit nothing
while an active order is set. -/
theorem C5_single_active_order (s : BotState) (o : Order) (evs : List Event)
    (h : s.active_order = some o) :
    place_buy_order s = (s, []) ∧ place_sell_order s = (s, []) ∧
      ((runEvents s evs).1.active_order).toList.length ≤ 1 := by
  refine ⟨?_, ?_, ?_⟩
  · simp [place_buy_order, h]
  · simp [place_sell_order, h]
  · cases (runEvents s evs).1.active_order <;> simp

/-- Witness for C5 at the concrete state `sellState`. -/
theorem C5_witness :
    place_buy_order sellState = (sellState, []) ∧
      place_sell_order sellState = (sellState, []) ∧
      ((runEvents sellState []).1.active_order).toList.length ≤ 1 :=
  C5_single_active_order sellState
    { action := "SELL", orderId := 5, auxPrice := 10, totalQuantity := 100 } [] rfl

/-- Claim C6: with both readiness flags still unset, delivering the two
snapshot end markers in either order produces the same final state and the
same submissions, and the barrier guard is false at the first end marker and
true exactly at the second, so the decision is evaluated exactly once. -/
theorem C6_barrier_commutes (s : BotState)
    (h1 : s.open_orders_loaded = false) (h2 : s.positions_loaded = false) :
    runEvents s [Event.openOrdersEndEv, Event.positionsEndEv] =
        runEvents s [Event.positionsEndEv, Event.openOrdersEndEv] ∧
      barrierReady { s with open_orders_loaded := true } = false ∧
      barrierReady { s with positions_loaded := true } = false ∧
      barrierReady { s with
        open_orders_loaded := true, positions_loaded := true } = true := by
  obtain ⟨sym, ub, lb, q, act, ft, ip, ool, pl, lp, lbp, rl, noid⟩ := s
  simp only at h1 h2
  subst h1
  subst h2
  cases act <;>
    simp [runEvents, step, openOrderEnd, positionEnd, init_orders_if_ready,
      barrierReady, place_buy_order]

/-- Witness for C6 at the concrete state `demoState`. -/
theorem C6_witness :
    runEvents demoState [Event.openOrdersEndEv, Event.positionsEndEv] =
        runEvents demoState [Event.positionsEndEv, Event.openOrdersEndEv] ∧
      barrierReady { demoState with open_orders_loaded := true } = false ∧
      barrierReady { demoState with positions_loaded := true } = false ∧
      barrierReady { demoState with
        open_orders_loaded := true, positions_loaded := true } = true :=
  C6_barrier_commutes demoState rfl rfl

/-- Claim C7: adopting a matching stop order from the open-order snapshot
means no order is submitted during the whole reconciliation run, whatever
position quantities the broker reports. -/
theorem C7_adopted_blocks_placement (s : BotState) (it : OpenOrderItem)
    (ps : List (String × Int))
    (hsym : it.symbol = s.stock_symbol) (htyp : it.orderType = "STP") :
    (runEvents s (Event.openOrderItem it ::
        (mkPosEvents ps ++ [Event.openOrdersEndEv, Event.positionsEndEv]))).2
      = [] := by
  have hadopt : openOrder s it =
      { s with active_order := some { action := it.action, orderId := it.orderId,
                                      auxPrice := it.auxPrice,
                                      totalQuantity := it.totalQuantity } } := by
    simp [openOrder, hsym, htyp]
  simp only [runEvents, step, hadopt]
  rw [runEvents_append]
  obtain ⟨b, c, hps⟩ := runPos_shape ps
    { s with active_order := some { action := it.action, orderId := it.orderId,
                                    auxPrice := it.auxPrice,
                                    totalQuantity := it.totalQuantity } }
  rw [hps]
  rw [ends_out_some _
    { action := it.action, orderId := it.orderId, auxPrice := it.auxPrice,
      totalQuantity := it.totalQuantity } rfl]
  simp

/-- Witness for C7: an adopted SELL stop for fifty shares suppresses the
initial placement even though one hundred shares are reported held. -/
theorem C7_witness :
    (runEvents demoState (Event.openOrderItem
        { symbol := "TSLA", orderType := "STP", orderId := 9, action := "SELL",
          auxPrice := 10, totalQuantity := 50 } ::
        (mkPosEvents [("TSLA", 100)] ++
          [Event.openOrdersEndEv, Event.positionsEndEv]))).2 = [] :=
  C7_adopted_blocks_placement demoState
    { symbol := "TSLA", orderType := "STP", orderId := 9, action := "SELL",
      auxPrice := 10, totalQuantity := 50 } [("TSLA", 100)] rfl rfl

/-- Claim C8: an execution fill whose order id does not match the active
order (in particular any fill while no order is active) leaves the whole
state unchanged and submits nothing. -/
theorem C8_foreign_fill_ignored (s : BotState) (e : Execution)
    (h : ∀ ao : Order, s.active_order = some ao → ao.orderId ≠ e.orderId) :
    execDetails s e = (s, []) := by
  cases ha : s.active_order with
  | none => simp [execDetails, ha]
  | some ao => simp [execDetails, ha, h ao ha]

/-- Witness for C8: a stray fill at the freshly constructed state. -/
theorem C8_witness :
    execDetails demoState { orderId := 42, price := 5, shares := 10 }
      = (demoState, []) :=
  C8_foreign_fill_ignored demoState
    { orderId := 42, price := 5, shares := 10 }
    (by intro ao hao; simp [demoState] at hao)

/-- Claim C9: broker error events and market-data tick events leave every
component of the trading state exactly as it was. -/
theorem C9_info_events_frame (s : BotState) (req code : Int) (msg : String)
    (reqId tickType ts : Nat) (price : ℚ) (size : Nat) :
    error s req code msg = s ∧
      tickByTickAllLast s reqId tickType ts price size = s :=
  ⟨rfl, rfl⟩

/-- Claim C10: the startup placement decision does not read the position
snapshot content: two runs differing only in their position snapshot items
submit exactly the same orders. -/
theorem C10_position_noninterference (s : BotState) (oos : List OpenOrderItem)
    (ps1 ps2 : List (String × Int)) :
    (runEvents s (oos.map Event.openOrderItem ++
        (mkPosEvents ps1 ++ [Event.openOrdersEndEv, Event.positionsEndEv]))).2 =
      (runEvents s (oos.map Event.openOrderItem ++
        (mkPosEvents ps2 ++ [Event.openOrdersEndEv, Event.positionsEndEv]))).2 := by
  have key : ∀ ps : List (String × Int),
      (runEvents s (oos.map Event.openOrderItem ++
          (mkPosEvents ps ++ [Event.openOrdersEndEv, Event.positionsEndEv]))).2 =
        (runEvents s (oos.map Event.openOrderItem)).2 ++
          (runEvents (runEvents s (oos.map Event.openOrderItem)).1
            [Event.openOrdersEndEv, Event.positionsEndEv]).2 := by
    intro ps
    rw [runEvents_append (oos.map Event.openOrderItem)
      (mkPosEvents ps ++ [Event.openOrdersEndEv, Event.positionsEndEv]) s]
    rw [runEvents_append (mkPosEvents ps)
      [Event.openOrdersEndEv, Event.positionsEndEv]
      (runEvents s (oos.map Event.openOrderItem)).1]
    obtain ⟨b, c, e⟩ :=
      runPos_shape ps (runEvents s (oos.map Event.openOrderItem)).1
    rw [e]
    simp only [List.nil_append]
    rw [ends_out_congr (runEvents s (oos.map Event.openOrderItem)).1 b c]
  rw [key ps1, key ps2]

/-- Claim C1 counterexample: order quantity 100 and reported held quantity
100 (Scenario B of the specification), no order discovered.  The claim
demands a SELL for 100 at the lower bound; the code places a BUY for 100 at
the upper bound — the barrier never reads the held quantity. -/
theorem C1_counterexample :
    (runEvents demoState [Event.positionItem "TSLA" 100,
        Event.openOrdersEndEv, Event.positionsEndEv]).2 =
      [{ action := "BUY", orderId := 1, auxPrice := 20, totalQuantity := 100 }] ∧
      ("BUY" : String) ≠ "SELL" := by
  exact ⟨by decide, by decide⟩

/-- Claim C1 amended: at the barrier, when no active order was discovered, a
BUY stop for the full order quantity at the upper bound is placed regardless
of the reconciled held quantity. -/
theorem C1_amended_buy_regardless (s : BotState) (h : s.active_order = none) :
    init_orders_if_ready { s with
        open_orders_loaded := true, positions_loaded := true } =
      ({ s with
          open_orders_loaded := true, positions_loaded := true,
          active_order := some { action := "BUY", orderId := s.next_order_id,
                                 auxPrice := s.upper_bound,
                                 totalQuantity := s.buy_qty },
          next_order_id := s.next_order_id + 1 },
        [{ action := "BUY", orderId := s.next_order_id,
           auxPrice := s.upper_bound, totalQuantity := s.buy_qty }]) := by
  simp [init_orders_if_ready, place_buy_order, h]

/-- Witness for the amended C1 at the freshly constructed state. -/
theorem C1_witness :
    init_orders_if_ready { demoState with
        open_orders_loaded := true, positions_loaded := true } =
      ({ demoState with
          open_orders_loaded := true, positions_loaded := true,
          active_order := some { action := "BUY",
                                 orderId := demoState.next_order_id,
                                 auxPrice := demoState.upper_bound,
                                 totalQuantity := demoState.buy_qty },
          next_order_id := demoState.next_order_id + 1 },
        [{ action := "BUY", orderId := demoState.next_order_id,
           auxPrice := demoState.upper_bound,
           totalQuantity := demoState.buy_qty }]) :=
  C1_amended_buy_regardless demoState rfl

/-- Claim C2 counterexample: a partial SELL fill of 60 shares at price 19/2
with a known BUY price of 10 leaves `running_loss` unchanged, although the
claim demands an increase of (10 - 19/2) * 60, which is nonzero. -/
theorem C2_counterexample :
    (execDetails sellState
        { orderId := 5, price := 19/2, shares := 60 }).1.running_loss =
      sellState.running_loss ∧
      ((10 : ℚ) - 19/2) * 60 ≠ 0 := by
  refine ⟨by decide, by norm_num⟩

/-- Claim C2 amended: `running_loss` changes only on the completing SELL
fill — a fill keeping the cumulative total below the configured order
quantity leaves it unchanged, and the completing fill adds
(last BUY price - completing fill price) * configured order quantity,
or 0 when no BUY price is known. -/
theorem C2_amended_loss_on_completion (s : BotState) (ao : Order)
    (e : Execution) (h : s.active_order = some ao)
    (hid : ao.orderId = e.orderId) (hact : ao.action = "SELL") :
    (trackGet s.fill_tracker e.orderId + e.shares < s.buy_qty →
        (execDetails s e).1.running_loss = s.running_loss) ∧
      (s.buy_qty ≤ trackGet s.fill_tracker e.orderId + e.shares →
        (execDetails s e).1.running_loss = s.running_loss +
          (match s.last_buy_price with
            | some b => (b - e.price) * (s.buy_qty : ℚ)
            | none => 0)) := by
  constructor
  · intro hlt
    simp [execDetails, h, hid, trackGet_trackSet, hlt]
  · intro hge
    have hnlt : ¬ trackGet s.fill_tracker e.orderId + e.shares < s.buy_qty :=
      Nat.not_lt.mpr hge
    simp [execDetails, h, hid, hact, trackGet_trackSet, hnlt, place_buy_order]

/-- Witness for the amended C2: a completing SELL fill of 100 at 9 with the
last BUY at 10 adds (10 - 9) * 100 to the running loss. -/
theorem C2_witness :
    (execDetails sellState
        { orderId := 5, price := 9, shares := 100 }).1.running_loss =
      sellState.running_loss + ((10 : ℚ) - 9) * (sellState.buy_qty : ℚ) :=
  (C2_amended_loss_on_completion sellState
    { action := "SELL", orderId := 5, auxPrice := 10, totalQuantity := 100 }
    { orderId := 5, price := 9, shares := 100 } rfl rfl rfl).2 (by decide)

/-- Claim C3 counterexample: a partial BUY fill of 60 shares at price 10
leaves `last_buy_price` untouched (still `none`), although the claim demands
it be overwritten with the fill price on every BUY fill. -/
theorem C3_counterexample :
    (execDetails buyState
        { orderId := 3, price := 10, shares := 60 }).1.last_buy_price = none ∧
      (none : Option ℚ) ≠ some 10 := by
  exact ⟨by decide, by decide⟩

/-- Claim C3 amended: `last_buy_price` is written only by the completing BUY
fill, and then holds that completing fill price; a BUY fill keeping the
cumulative total below the configured order quantity leaves it unchanged. -/
theorem C3_amended_last_buy_on_completion (s : BotState) (ao : Order)
    (e : Execution) (h : s.active_order = some ao)
    (hid : ao.orderId = e.orderId) (hact : ao.action = "BUY") :
    (trackGet s.fill_tracker e.orderId + e.shares < s.buy_qty →
        (execDetails s e).1.last_buy_price = s.last_buy_price) ∧
      (s.buy_qty ≤ trackGet s.fill_tracker e.orderId + e.shares →
        (execDetails s e).1.last_buy_price = some e.price) := by
  constructor
  · intro hlt
    simp [execDetails, h, hid, trackGet_trackSet, hlt]
  · intro hge
    have hnlt : ¬ trackGet s.fill_tracker e.orderId + e.shares < s.buy_qty :=
      Nat.not_lt.mpr hge
    simp [execDetails, h, hid, hact, trackGet_trackSet, hnlt, place_sell_order]

/-- Witness for the amended C3: a completing BUY fill at 21/2 sets the last
BUY price to 21/2. -/
theorem C3_witness :
    (execDetails buyState
        { orderId := 3, price := 21/2, shares := 100 }).1.last_buy_price =
      some ((21 : ℚ)/2) :=
  (C3_amended_last_buy_on_completion buyState
    { action := "BUY", orderId := 3, auxPrice := 20, totalQuantity := 100 }
    { orderId := 3, price := 21/2, shares := 100 } rfl rfl rfl).2 (by decide)

/-- Claim C4 counterexample: an adopted SELL stop requesting only 50 shares
(configured quantity 100) receives a fill of 50, so the cumulative fill
reaches its requested quantity; yet the code does not complete the order —
the accumulator keeps the entry, the order stays active, nothing is
placed. -/
theorem C4_counterexample :
    (execDetails adoptedState
        { orderId := 7, price := 9, shares := 50 }).1.fill_tracker =
      [(7, 50)] ∧
      (execDetails adoptedState { orderId := 7, price := 9, shares := 50 }).2
        = [] ∧
      (execDetails adoptedState
        { orderId := 7, price := 9, shares := 50 }).1.active_order =
      some { action := "SELL", orderId := 7, auxPrice := 10,
             totalQuantity := 50 } := by
  refine ⟨by decide, by decide, by decide⟩

/-- Claim C4 amended: completion triggers when the cumulative fill reaches
the configured order quantity `buy_qty` (not the active order's own
requested quantity): the accumulator entry is removed, the position flips,
and exactly one opposite-side stop is placed and becomes the active
order. -/
theorem C4_amended_completion (s : BotState) (ao : Order) (e : Execution)
    (h : s.active_order = some ao) (hid : ao.orderId = e.orderId)
    (hge : s.buy_qty ≤ trackGet s.fill_tracker e.orderId + e.shares) :
    (ao.action = "BUY" →
        execDetails s e =
          ({ s with
              fill_tracker := trackDel (trackSet s.fill_tracker e.orderId
                (trackGet s.fill_tracker e.orderId + e.shares)) e.orderId,
              last_buy_price := some e.price, in_position := true,
              active_order := some { action := "SELL",
                                     orderId := s.next_order_id,
                                     auxPrice := s.lower_bound,
                                     totalQuantity := s.buy_qty },
              next_order_id := s.next_order_id + 1 },
            [{ action := "SELL", orderId := s.next_order_id,
               auxPrice := s.lower_bound, totalQuantity := s.buy_qty }])) ∧
      (ao.action = "SELL" →
        execDetails s e =
          ({ s with
              fill_tracker := trackDel (trackSet s.fill_tracker e.orderId
                (trackGet s.fill_tracker e.orderId + e.shares)) e.orderId,
              in_position := false,
              running_loss := s.running_loss +
                (match s.last_buy_price with
                  | some b => (b - e.price) * (s.buy_qty : ℚ)
                  | none => 0),
              active_order := some { action := "BUY",
                                     orderId := s.next_order_id,
                                     auxPrice := s.upper_bound,
                                     totalQuantity := s.buy_qty },
              next_order_id := s.next_order_id + 1 },
            [{ action := "BUY", orderId := s.next_order_id,
               auxPrice := s.upper_bound, totalQuantity := s.buy_qty }])) ∧
      trackGet (execDetails s e).1.fill_tracker e.orderId = 0 := by
  have hnlt : ¬ trackGet s.fill_tracker e.orderId + e.shares < s.buy_qty :=
    Nat.not_lt.mpr hge
  refine ⟨?_, ?_, ?_⟩
  · intro hbuy
    simp [execDetails, h, hid, hbuy, hnlt, trackGet_trackSet, place_sell_order]
  · intro hsell
    simp [execDetails, h, hid, hsell, hnlt, trackGet_trackSet, place_buy_order]
  · by_cases hb : ao.action = "BUY"
    · simp [execDetails, h, hid, hb, hnlt, trackGet_trackSet,
        place_sell_order, trackGet_trackDel]
    · by_cases hs : ao.action = "SELL"
      · simp [execDetails, h, hid, hs, hnlt, trackGet_trackSet,
          place_buy_order, trackGet_trackDel]
      · simp [execDetails, h, hid, hb, hs, hnlt, trackGet_trackSet,
          trackGet_trackDel]

/-- Witness for the amended C4: a completing BUY fill at the state holding
an active BUY stop flips to held and places the SELL stop. -/
theorem C4_witness :
    execDetails buyState { orderId := 3, price := 21/2, shares := 100 } =
      ({ buyState with
          fill_tracker := trackDel (trackSet buyState.fill_tracker 3
            (trackGet buyState.fill_tracker 3 + 100)) 3,
          last_buy_price := some ((21 : ℚ)/2), in_position := true,
          active_order := some { action := "SELL",
                                 orderId := buyState.next_order_id,
                                 auxPrice := buyState.lower_bound,
                                 totalQuantity := buyState.buy_qty },
          next_order_id := buyState.next_order_id + 1 },
        [{ action := "SELL", orderId := buyState.next_order_id,
           auxPrice := buyState.lower_bound,
           totalQuantity := buyState.buy_qty }]) :=
  (C4_amended_completion buyState
    { action := "BUY", orderId := 3, auxPrice := 20, totalQuantity := 100 }
    { orderId := 3, price := 21/2, shares := 100 } rfl rfl (by decide)).1 rfl

end IBApp
